import Mathlib

/-!
# Verification of the dumpsterr library validation and processing pipeline

A shallow embedding of `src/main.py` (library validation, per-library trash
emptying, exit-code aggregation) together with the collaborator contracts it
consumes (`filesystem.is_valid_directory` / `get_file_counts`,
`PlexClient.get_library_sections` / `get_library_size` / `empty_section_trash`,
`MetricsCollector.save_metrics`).

Modelling choices:
- Python exceptions are modelled with `Except String`: a raised exception is an
  `Except.error` carrying the message; every call site matches on the result
  and re-raises, exactly as uncaught exceptions propagate up the Python stack.
- Python `dict`s built by iteration are association lists in insertion order;
  `d.get(k, v)` is `(d.lookup k).getD v` and `d.get(k)` is `d.lookup k`.
- Python float arithmetic for the threshold percentage is modelled with `ℚ`
  (exact division); the claims checked here do not depend on rounding.
- The external collaborators are an `Env` record of oracles, so theorems
  quantifying over `Env` hold for every behaviour of the collaborators.
- `MetricsCollector.add_library_result`, `start_run` and `end_run` are pure
  in-memory updates of a Python dict and cannot raise; they do not influence
  the control flow of `main` or return value, so the collector is modelled by the
  one operation that performs I/O and can fail: `save_metrics`.
-/

namespace Dumpsterr

/-- A configured library path: the config may give a bare string or a list of
strings (the path entry of a library dict in `main.py`). -/
inductive PathSpec where
  | str (p : String)
  | list (ps : List String)
deriving DecidableEq, Repr

/-- One entry of the configured libraries list: name, path(s), and the optional
`min_files` / `min_threshold` keys (absent keys modelled as `none`; the code
reads them with dict-get defaults). -/
structure MediaInfo where
  name : String
  path : PathSpec
  min_files : Option Int
  min_threshold : Option ℚ
deriving DecidableEq, Repr

/-- The external collaborators consumed by `main.py`:
`filesystem.is_valid_directory` returns `(validity, error_message)`;
`filesystem.get_file_counts` returns a count (its internal raise is
unreachable from `main` because every call is guarded by
`is_valid_directory`); the three `PlexClient` operations may raise
(`Except.error`). -/
structure Env where
  is_valid_directory : String → Bool × String
  get_file_counts : String → Int
  get_library_sections : Except String (List (String × String))
  get_library_size : String → Except String Int
  empty_section_trash : String → Except String Bool

/-- Embeds `main.sum_path_file_counts` (main.py:19-37): for each path, check
`is_valid_directory`; raise `ValueError` on the first invalid path, otherwise
add `get_file_counts(path)` to the running total. -/
def sum_path_file_counts (env : Env) : List String → Except String Int
  | [] => .ok 0
  | path :: rest =>
    let v := env.is_valid_directory path
    if v.1 = false then
      .error ("Directory " ++ path ++ " is invalid or inaccessible: " ++ v.2)
    else
      match sum_path_file_counts env rest with
      | .error e => .error e
      | .ok total => .ok (env.get_file_counts path + total)

/-- Embeds `main.is_dirs_valid` (main.py:39-57): `true` iff every path passes
`is_valid_directory`; returns `false` at the first invalid path. -/
def is_dirs_valid (env : Env) : List String → Bool
  | [] => true
  | path :: rest =>
    if (env.is_valid_directory path).1 = false then false
    else is_dirs_valid env rest

/-- Embeds `main.get_section_media_counts` (main.py:60-76): for each `(name, key)` in
`sections`, fetch `get_library_size(key)`; a raise propagates (fatal). -/
def get_section_media_counts (env : Env) :
    List (String × String) → Except String (List (String × Int))
  | [] => .ok []
  | (sectionName, key) :: rest =>
    match env.get_library_size key with
    | .error e => .error e
    | .ok media_count =>
      match get_section_media_counts env rest with
      | .error e => .error e
      | .ok counts => .ok ((sectionName, media_count) :: counts)

/-- The `isinstance(paths, str)` normalization: a bare string becomes a
one-element list (main.py:92-93 and main.py:166-167). -/
def normalize_path : PathSpec → List String
  | .str p => [p]
  | .list ps => ps

/-- The in-place normalization loop of `main` (main.py:165-167): every
library whose `path` is a bare string gets it replaced by a one-element
list. -/
def normalize_info (l : MediaInfo) : MediaInfo :=
  { l with path := PathSpec.list (normalize_path l.path) }

/-- Embeds `main.get_section_file_counts` (main.py:79-97): per configured library,
normalize the path(s) and call `sum_path_file_counts`; a `ValueError` raised
there propagates out of this function. -/
def get_section_file_counts (env : Env) :
    List MediaInfo → Except String (List (String × Int))
  | [] => .ok []
  | library :: rest =>
    match sum_path_file_counts env (normalize_path library.path) with
    | .error e => .error e
    | .ok file_counts =>
      match get_section_file_counts env rest with
      | .error e => .error e
      | .ok counts => .ok ((library.name, file_counts) :: counts)

/-- The library dict as seen by `process_library`, after `main` has stored
`file_count`, `media_count` and `section_key` into it (main.py:189-191).
`file_count` and `media_count` are `Option` because `process_library` reads
them with dict-get defaults; `section_key` holds the value of
`sections.get(name)`, which is `None` when the name has no remote section. -/
structure LibraryRecord where
  name : String
  path : List String
  min_files : Option Int
  min_threshold : Option ℚ
  file_count : Option Int
  media_count : Option Int
  section_key : Option String
deriving DecidableEq, Repr

/-- The threshold percentage (main.py:124):
`(actual_file_count / expected_media_count * 100) if expected_media_count > 0 else 0`. -/
def actual_percentage (actual_file_count expected_media_count : Int) : ℚ :=
  if expected_media_count > 0 then
    (actual_file_count : ℚ) / (expected_media_count : ℚ) * 100
  else 0

/-- Which branch of `process_library` produced its boolean result: the Python
function logs the failure kind and returns `False` (or `True` on success);
the constructor records which logged branch was taken. -/
inductive ProcessOutcome where
  | directoryInvalid
  | belowMinimumFiles
  | belowThreshold
  | sectionNotFound
  | trashEmptyFailed
  | success
deriving DecidableEq, Repr

/-- The boolean `process_library` actually returns. -/
def ProcessOutcome.toBool : ProcessOutcome → Bool
  | .success => true
  | _ => false

/-- Python truthiness of `section_key` (`if section_key:` at main.py:132):
`None` and the empty string are falsy, every other string is truthy. -/
def pyTruthyOptStr : Option String → Bool
  | none => false
  | some s => !(s == "")

/-- The tail of `process_library` (main.py:130-142): branch on the truthiness
of `section_key`; if truthy, call `empty_section_trash` (a raise propagates,
`False` fails the library, `True` succeeds); otherwise the section was not
found. -/
def trash_stage (env : Env) (library : LibraryRecord) : Except String ProcessOutcome :=
  if pyTruthyOptStr library.section_key then
    match env.empty_section_trash (library.section_key.getD "") with
    | .error e => .error e
    | .ok true => .ok .success
    | .ok false => .ok .trashEmptyFailed
  else .ok .sectionNotFound

/-- Embeds `main.process_library` (main.py:99-142): three ordered validation checks
(directory validity, `file_count ≥ min_files` via
`file_count.getD (-1) < min_files.getD 0` as in the source, threshold
percentage with defaults `file_count → 0`, `media_count → 0`,
`min_threshold → 90`), each returning `False` immediately on failure, then
the trash stage. -/
def process_library (env : Env) (library : LibraryRecord) : Except String ProcessOutcome :=
  if is_dirs_valid env library.path = false then
    .ok .directoryInvalid
  else if library.file_count.getD (-1) < library.min_files.getD 0 then
    .ok .belowMinimumFiles
  else if actual_percentage (library.file_count.getD 0) (library.media_count.getD 0)
      < library.min_threshold.getD 90 then
    .ok .belowThreshold
  else
    trash_stage env library

/-- The enrichment `main` performs on each library dict before calling
`process_library` (main.py:189-191):
`file_count = section_file_counts.get(name, 0)`,
`media_count = section_media_counts.get(name, 0)`,
`section_key = sections.get(name)`. -/
def build_record (sections : List (String × String))
    (section_media_counts section_file_counts : List (String × Int))
    (library : MediaInfo) : LibraryRecord :=
  { name := library.name
    path := normalize_path library.path
    min_files := library.min_files
    min_threshold := library.min_threshold
    file_count := some ((section_file_counts.lookup library.name).getD 0)
    media_count := some ((section_media_counts.lookup library.name).getD 0)
    section_key := sections.lookup library.name }

/-- The per-library loop of `main` (main.py:188-216): enrich the record, run
`process_library`, and append the name to `successful_libraries` or
`failed_libraries`; an exception raised inside `process_library` propagates
and aborts the loop. -/
def process_all (env : Env) (sections : List (String × String))
    (section_media_counts section_file_counts : List (String × Int)) :
    List MediaInfo → Except String (List String × List String)
  | [] => .ok ([], [])
  | library :: rest =>
    match process_library env
        (build_record sections section_media_counts section_file_counts library) with
    | .error e => .error e
    | .ok outcome =>
      match process_all env sections section_media_counts section_file_counts rest with
      | .error e => .error e
      | .ok results =>
        if outcome.toBool then .ok (library.name :: results.1, results.2)
        else .ok (results.1, library.name :: results.2)

/-- The run outcome: library total, the two tally lists and the exit code
computed at main.py:218-231. -/
structure RunResult where
  total : Nat
  successful : List String
  failed : List String
  exitCode : Nat
deriving DecidableEq, Repr

/-- The exit-code computation of `main` (main.py:220-231): `0` when no
failures; otherwise `1` when some library also succeeded, else `2`. -/
def compute_exit_code (successful failed : List String) : Nat :=
  if failed.isEmpty = false then
    if successful.isEmpty = false then 1 else 2
  else 0

/-- The metrics collector as `main` can observe it: `start_run`, `end_run`
and `add_library_result` are in-memory dict updates that cannot raise, so the
collector is characterized by the outcome of `save_metrics`
(metrics.py:87-100), whose file write may raise. -/
structure MetricsCollector where
  save_metrics : Except String Unit

/-- Embeds `main.main` (main.py:145-239): normalize bare-string paths in place,
fetch sections and per-section media counts (raises are fatal), compute local
file counts (a `ValueError` from an invalid directory propagates), run the
per-library loop, compute the exit code, and finally — when a metrics
collector is supplied — call `save_metrics`, whose raise would propagate
before the exit code is returned. -/
def main_run (env : Env) (metrics_collector : Option MetricsCollector)
    (libraries : List MediaInfo) : Except String RunResult :=
  match env.get_library_sections with
  | .error e => .error e
  | .ok sections =>
    match get_section_media_counts env sections with
    | .error e => .error e
    | .ok section_media_counts =>
      match get_section_file_counts env (libraries.map normalize_info) with
      | .error e => .error e
      | .ok section_file_counts =>
        match process_all env sections section_media_counts section_file_counts
            (libraries.map normalize_info) with
        | .error e => .error e
        | .ok results =>
          match metrics_collector with
          | some m =>
            match m.save_metrics with
            | .ok _ => .ok ⟨(libraries.map normalize_info).length, results.1, results.2,
                compute_exit_code results.1 results.2⟩
            | .error e => .error e
          | none => .ok ⟨(libraries.map normalize_info).length, results.1, results.2,
              compute_exit_code results.1 results.2⟩

/-- Equality of run outcomes is decidable, so concrete runs can be settled by
evaluation. -/
instance {e a : Type} [DecidableEq e] [DecidableEq a] : DecidableEq (Except e a) := fun x y =>
  match x, y with
  | .ok v, .ok w => decidable_of_iff (v = w) (by simp)
  | .error u, .error t => decidable_of_iff (u = t) (by simp)
  | .ok _, .error _ => isFalse (by simp)
  | .error _, .ok _ => isFalse (by simp)

/-! ## Concrete environments and configurations used by witnesses -/

/-- An environment whose only invalid directory is `"bad"`: every other path
is a valid directory holding 5 files; two remote sections `A` and `B`, each
reporting size 0 (so the threshold stage takes its zero-guard branch); trash
emptying always succeeds. -/
def envBadDir : Env :=
  { is_valid_directory := fun p =>
      if p = "bad" then (false, "Directory does not exist: bad") else (true, "")
    get_file_counts := fun _ => 5
    get_library_sections := .ok [("A", "1"), ("B", "2")]
    get_library_size := fun _ => .ok 0
    empty_section_trash := fun _ => .ok true }

/-- Library `A` over the invalid directory `"bad"`. -/
def libA_bad : MediaInfo :=
  { name := "A", path := .list ["bad"], min_files := none, min_threshold := none }

/-- Library `B` over a valid directory, with thresholds it satisfies. -/
def libB_good : MediaInfo :=
  { name := "B", path := .list ["good"], min_files := some 0, min_threshold := some 0 }

/-- An environment where every directory is valid with 10 files, sections `A`
and `B` report size 0, and emptying trash for section `"1"` raises a transport
error while section `"2"` succeeds. -/
def envTrashRaises : Env :=
  { is_valid_directory := fun _ => (true, "")
    get_file_counts := fun _ => 10
    get_library_sections := .ok [("A", "1"), ("B", "2")]
    get_library_size := fun _ => .ok 0
    empty_section_trash := fun k =>
      if k = "1" then .error "Failed to empty trash for section 1: boom" else .ok true }

/-- Libraries `A` and `B`, both over valid directories, with thresholds they
satisfy. -/
def libsAB : List MediaInfo :=
  [ { name := "A", path := .list ["p"], min_files := some 0, min_threshold := some 0 },
    { name := "B", path := .list ["q"], min_files := some 0, min_threshold := some 0 } ]

/-- An environment with one remote section `Movies` (reported size 0), every
directory valid with 95 files, and trash emptying succeeding. -/
def envMovies : Env :=
  { is_valid_directory := fun _ => (true, "")
    get_file_counts := fun _ => 95
    get_library_sections := .ok [("Movies", "1")]
    get_library_size := fun _ => .ok 0
    empty_section_trash := fun _ => .ok true }

/-- The single `Movies` library configuration, with a bare-string path. -/
def libsMovies : List MediaInfo :=
  [ { name := "Movies", path := .str "/movies", min_files := some 0, min_threshold := some 0 } ]

/-! ## Helper lemmas -/

/-- The three-valued exit code (main.py:220-231), characterized by the
emptiness of the two tally lists. -/
theorem compute_exit_code_cases (successful failed : List String) :
    (compute_exit_code successful failed = 0 ↔ failed = []) ∧
    (compute_exit_code successful failed = 2 ↔ (successful = [] ∧ failed ≠ [])) ∧
    (compute_exit_code successful failed = 1 ↔ (successful ≠ [] ∧ failed ≠ [])) := by
  unfold compute_exit_code
  rcases failed with _ | ⟨f, fs⟩ <;> rcases successful with _ | ⟨a, as⟩ <;> simp

/-- Every successful run carries the exit code computed from its own tally
lists, and a run over zero libraries can only succeed with the empty result. -/
theorem main_run_ok_structure (env : Env) (metrics : Option MetricsCollector)
    (libraries : List MediaInfo) (r : RunResult)
    (h : main_run env metrics libraries = .ok r) :
    r.exitCode = compute_exit_code r.successful r.failed ∧
    r.total = libraries.length ∧
    (libraries = [] → r = ⟨0, [], [], 0⟩) := by
  unfold main_run at h
  split at h
  · simp at h
  · split at h
    · simp at h
    · split at h
      · simp at h
      · split at h
        · simp at h
        · rename_i results hp
          have hr : r = ⟨(libraries.map normalize_info).length, results.1, results.2,
              compute_exit_code results.1 results.2⟩ := by
            split at h
            · split at h
              · injection h with h2
                exact h2.symm
              · simp at h
            · injection h with h2
              exact h2.symm
          subst hr
          refine ⟨rfl, by simp, ?_⟩
          intro hnil
          subst hnil
          simp only [List.map_nil, process_all] at hp
          injection hp with hres
          rw [← hres]
          rfl


/-! ## Further concrete environments -/

/-- An environment where every directory is valid with 10 files and the two
remote sections report size 0; trash emptying always succeeds. -/
def envAllValid : Env :=
  { is_valid_directory := fun _ => (true, "")
    get_file_counts := fun _ => 10
    get_library_sections := .ok [("A", "1"), ("B", "2")]
    get_library_size := fun _ => .ok 0
    empty_section_trash := fun _ => .ok true }

/-- Like `envAllValid`, but emptying trash for section `"1"` returns `False`
(an HTTP status other than 200) instead of raising. -/
def envTrashFalse : Env :=
  { is_valid_directory := fun _ => (true, "")
    get_file_counts := fun _ => 10
    get_library_sections := .ok [("A", "1"), ("B", "2")]
    get_library_size := fun _ => .ok 0
    empty_section_trash := fun k => if k = "1" then .ok false else .ok true }

/-- A record whose remote media count is zero while 50 local files exist and
the threshold is the default-like 90. -/
def recZeroMedia : LibraryRecord :=
  { name := "M", path := ["p"], min_files := some 0, min_threshold := some 90,
    file_count := some 50, media_count := some 0, section_key := some "1" }

/-- A record with 3 local files against a minimum of 5. -/
def recBelowMin : LibraryRecord :=
  { name := "M", path := ["p"], min_files := some 5, min_threshold := some 0,
    file_count := some 3, media_count := some 0, section_key := some "1" }

/-- The configuration entry behind section `A`. -/
def libAconf : MediaInfo :=
  { name := "A", path := .list ["p"], min_files := some 0, min_threshold := some 0 }

/-- The configuration entry behind section `B`. -/
def libBconf : MediaInfo :=
  { name := "B", path := .list ["q"], min_files := some 0, min_threshold := some 0 }

/-- The `Movies` configuration entry with a bare-string path. -/
def libMoviesConf : MediaInfo :=
  { name := "Movies", path := .str "/movies", min_files := some 0, min_threshold := some 0 }

/-! ## Shared lemmas about the per-library pipeline -/

/-- When all three validation checks pass, `process_library` is exactly its
trash stage. -/
theorem process_library_validated (env : Env) (library : LibraryRecord)
    (h1 : is_dirs_valid env library.path = true)
    (h2 : ¬ library.file_count.getD (-1) < library.min_files.getD 0)
    (h3 : ¬ actual_percentage (library.file_count.getD 0) (library.media_count.getD 0)
        < library.min_threshold.getD 90) :
    process_library env library = trash_stage env library := by
  unfold process_library
  rw [if_neg (by simp [h1]), if_neg h2, if_neg h3]

/-- A library whose `process_library` returns an unsuccessful boolean is
appended to the failed list and the loop proceeds over the remaining
libraries unchanged. -/
theorem process_all_cons_fail (env : Env) (sections : List (String × String))
    (smc sfc : List (String × Int)) (library : MediaInfo) (rest : List MediaInfo)
    (o : ProcessOutcome)
    (h : process_library env (build_record sections smc sfc library) = .ok o)
    (hfail : o.toBool = false) :
    process_all env sections smc sfc (library :: rest) =
      Except.map (fun p => (p.1, library.name :: p.2))
        (process_all env sections smc sfc rest) := by
  simp only [process_all]
  rw [h]
  cases hrest : process_all env sections smc sfc rest with
  | error e => simp [Except.map]
  | ok results => simp [Except.map, hfail]

/-- A library whose `process_library` raises aborts the loop with that
exception: no tally is produced at all. -/
theorem process_all_cons_error (env : Env) (sections : List (String × String))
    (smc sfc : List (String × Int)) (library : MediaInfo) (rest : List MediaInfo)
    (e : String)
    (h : process_library env (build_record sections smc sfc library) = .error e) :
    process_all env sections smc sfc (library :: rest) = .error e := by
  simp only [process_all]
  rw [h]

/-! ## Claims -/

/-- C1: the claim states that the failure of one library — including a
directory-validity failure — never prevents subsequent libraries from being
attempted. The code violates this: `get_section_file_counts` runs
`sum_path_file_counts` over every library before the per-library loop, and an
invalid directory raises there, uncaught in `main` (main.py:182), so the
whole run aborts. Concretely: with library `A` over the invalid directory
`"bad"` and a healthy library `B`, the run returns the raised error — `A` is
not recorded as failed and `B` is never attempted — although `B` alone
processes successfully. The code contradicts its own comment at main.py:94
("Validation will be done later in process_library via is_dirs_valid"). -/
theorem c1_invalid_directory_aborts_run :
    main_run envBadDir none [libA_bad, libB_good] =
      .error "Directory bad is invalid or inaccessible: Directory does not exist: bad" ∧
    main_run envBadDir none [libB_good] = .ok ⟨1, ["B"], [], 0⟩ :=
  ⟨by decide, by decide⟩

/-- C2: every run that returns satisfies `exitCode = 0 ↔ failed = []`,
`exitCode = 2 ↔ successful = [] ∧ failed ≠ []`, `exitCode = 1` exactly in the
mixed case, and a run over zero configured libraries can only return
`exitCode = 0` with empty tally lists (main.py:218-231). -/
theorem c2_exit_code_invariant (env : Env) (metrics : Option MetricsCollector)
    (libraries : List MediaInfo) (r : RunResult)
    (h : main_run env metrics libraries = .ok r) :
    (r.exitCode = 0 ↔ r.failed = []) ∧
    (r.exitCode = 2 ↔ (r.successful = [] ∧ r.failed ≠ [])) ∧
    (r.exitCode = 1 ↔ (r.successful ≠ [] ∧ r.failed ≠ [])) ∧
    (libraries = [] → r.exitCode = 0 ∧ r.successful = [] ∧ r.failed = []) := by
  obtain ⟨hex, -, hnil⟩ := main_run_ok_structure env metrics libraries r h
  obtain ⟨h0, h2, h1⟩ := compute_exit_code_cases r.successful r.failed
  refine ⟨by rw [hex]; exact h0, by rw [hex]; exact h2, by rw [hex]; exact h1, ?_⟩
  intro hl
  rw [hnil hl]
  exact ⟨rfl, rfl, rfl⟩

/-- Witness for C2: a concrete zero-library run returning
`⟨0, [], [], 0⟩`, with the invariant evaluated there. -/
theorem c2_exit_code_invariant_witness :
    ((RunResult.mk 0 [] [] 0).exitCode = 0 ↔ (RunResult.mk 0 [] [] 0).failed = []) ∧
    ((RunResult.mk 0 [] [] 0).exitCode = 2 ↔
      ((RunResult.mk 0 [] [] 0).successful = [] ∧ (RunResult.mk 0 [] [] 0).failed ≠ [])) ∧
    ((RunResult.mk 0 [] [] 0).exitCode = 1 ↔
      ((RunResult.mk 0 [] [] 0).successful ≠ [] ∧ (RunResult.mk 0 [] [] 0).failed ≠ [])) ∧
    (([] : List MediaInfo) = [] → (RunResult.mk 0 [] [] 0).exitCode = 0 ∧
      (RunResult.mk 0 [] [] 0).successful = [] ∧ (RunResult.mk 0 [] [] 0).failed = []) :=
  c2_exit_code_invariant envMovies none [] (RunResult.mk 0 [] [] 0) (by decide)

/-- C3: when `media_count = 0`, `actual_percentage` is exactly `0` no matter
the file count (the division is guarded by the `expected_media_count > 0`
test, main.py:124), so the threshold check fails for every positive
`min_threshold` and passes (falling through to the trash stage) when
`min_threshold = 0`. -/
theorem c3_zero_media_percentage (env : Env) (library : LibraryRecord)
    (hm : library.media_count = some 0) :
    actual_percentage (library.file_count.getD 0) (library.media_count.getD 0) = 0 ∧
    (is_dirs_valid env library.path = true →
      ¬ library.file_count.getD (-1) < library.min_files.getD 0 →
      ((0 < library.min_threshold.getD 90 →
          process_library env library = .ok .belowThreshold) ∧
       (library.min_threshold.getD 90 = 0 →
          process_library env library = trash_stage env library))) := by
  have hap : actual_percentage (library.file_count.getD 0) (library.media_count.getD 0) = 0 := by
    rw [hm]
    simp [actual_percentage]
  refine ⟨hap, ?_⟩
  intro h1 h2
  constructor
  · intro hpos
    unfold process_library
    rw [if_neg (by simp [h1]), if_neg h2, if_pos (by rw [hap]; exact hpos)]
  · intro hz
    exact process_library_validated env library h1 h2 (by rw [hap, hz]; exact lt_irrefl 0)

/-- Witness for C3: 50 local files against 0 remote media with threshold 90
fail the threshold check. -/
theorem c3_zero_media_percentage_witness :
    process_library envAllValid recZeroMedia = .ok .belowThreshold :=
  ((c3_zero_media_percentage envAllValid recZeroMedia rfl).2 (by decide) (by decide)).1 (by decide)

/-- C4 counterexample: the claim states that an `emptyTrash` exception marks
the library failed and the run continues, like a `False` return. It does not:
with library `A` validating and its `empty_section_trash` raising, the
exception propagates out of `process_library` (main.py:133 has no handler)
and the run aborts — no tally records `A` as failed and `B` is never
attempted. -/
theorem c4_counterexample_trash_raise_aborts :
    main_run envTrashRaises none [libAconf, libBconf] =
      .error "Failed to empty trash for section 1: boom" := by decide

/-- C4 (amended): for a library that passes validation with a truthy section
key, an `emptyTrash` returning `False` marks the library failed and the run
continues to the remaining libraries; an `emptyTrash` exception propagates
and aborts the per-library loop. -/
theorem c4_trash_false_continues_raise_aborts (env : Env)
    (sections : List (String × String)) (smc sfc : List (String × Int))
    (library : MediaInfo) (rest : List MediaInfo)
    (h1 : is_dirs_valid env (build_record sections smc sfc library).path = true)
    (h2 : ¬ (build_record sections smc sfc library).file_count.getD (-1)
        < (build_record sections smc sfc library).min_files.getD 0)
    (h3 : ¬ actual_percentage ((build_record sections smc sfc library).file_count.getD 0)
        ((build_record sections smc sfc library).media_count.getD 0)
        < (build_record sections smc sfc library).min_threshold.getD 90)
    (htruthy : pyTruthyOptStr (build_record sections smc sfc library).section_key = true) :
    (env.empty_section_trash ((build_record sections smc sfc library).section_key.getD "")
        = .ok false →
      process_library env (build_record sections smc sfc library) = .ok .trashEmptyFailed ∧
      process_all env sections smc sfc (library :: rest) =
        Except.map (fun p => (p.1, library.name :: p.2))
          (process_all env sections smc sfc rest)) ∧
    (∀ e, env.empty_section_trash ((build_record sections smc sfc library).section_key.getD "")
        = .error e →
      process_all env sections smc sfc (library :: rest) = .error e) := by
  constructor
  · intro hfalse
    have hpl : process_library env (build_record sections smc sfc library)
        = .ok .trashEmptyFailed := by
      rw [process_library_validated env _ h1 h2 h3]
      unfold trash_stage
      rw [if_pos htruthy, hfalse]
    exact ⟨hpl, process_all_cons_fail env sections smc sfc library rest _ hpl rfl⟩
  · intro e herr
    apply process_all_cons_error
    rw [process_library_validated env _ h1 h2 h3]
    unfold trash_stage
    rw [if_pos htruthy, herr]

/-- Witness for C4: with `empty_section_trash` returning `False` for section
`"1"`, library `A` is marked failed and library `B` is still processed. -/
theorem c4_trash_false_witness :
    process_library envTrashFalse
      (build_record [("A", "1"), ("B", "2")] [("A", 0), ("B", 0)] [("A", 10), ("B", 10)]
        libAconf) = .ok .trashEmptyFailed ∧
    process_all envTrashFalse [("A", "1"), ("B", "2")] [("A", 0), ("B", 0)]
        [("A", 10), ("B", 10)] (libAconf :: [libBconf]) =
      Except.map (fun p => (p.1, libAconf.name :: p.2))
        (process_all envTrashFalse [("A", "1"), ("B", "2")] [("A", 0), ("B", 0)]
          [("A", 10), ("B", 10)] [libBconf]) :=
  (c4_trash_false_continues_raise_aborts envTrashFalse [("A", "1"), ("B", "2")]
    [("A", 0), ("B", 0)] [("A", 10), ("B", 10)] libAconf [libBconf]
    (by decide) (by decide) (by decide) (by decide)).1 (by decide)

/-- C5: the claim (and the code comment at main.py:237 together with the test
`test_save_metrics_with_permission_error`) states that a metrics-sink
failure is swallowed and never changes the exit code. The code violates
this: `save_metrics` (metrics.py:87-100) writes the file with no handler and
`main` calls it unprotected (main.py:236), so a raise propagates to the
caller instead of the computed exit code: the same healthy run returns
`exitCode = 0` with a succeeding sink and raises with a failing one. -/
theorem c5_metrics_save_failure_surfaces :
    main_run envMovies (some ⟨.error "disk full"⟩) libsMovies = .error "disk full" ∧
    main_run envMovies (some ⟨.ok ()⟩) libsMovies = .ok ⟨1, ["Movies"], [], 0⟩ :=
  ⟨by decide, by decide⟩

/-- C6: validation applies exactly three checks in this fixed order —
directory validity, minimum file count, threshold percentage —
short-circuiting: the outcome is that of the first failing check, and (since
`env` and all later fields are universally quantified) later checks and the
trash oracle are never consulted; when all three pass, `process_library` is
exactly its trash stage (main.py:110-129). -/
theorem c6_three_ordered_checks (env : Env) (library : LibraryRecord) :
    (is_dirs_valid env library.path = false →
      process_library env library = .ok .directoryInvalid) ∧
    (is_dirs_valid env library.path = true →
      library.file_count.getD (-1) < library.min_files.getD 0 →
      process_library env library = .ok .belowMinimumFiles) ∧
    (is_dirs_valid env library.path = true →
      ¬ library.file_count.getD (-1) < library.min_files.getD 0 →
      actual_percentage (library.file_count.getD 0) (library.media_count.getD 0)
          < library.min_threshold.getD 90 →
      process_library env library = .ok .belowThreshold) ∧
    (is_dirs_valid env library.path = true →
      ¬ library.file_count.getD (-1) < library.min_files.getD 0 →
      ¬ actual_percentage (library.file_count.getD 0) (library.media_count.getD 0)
          < library.min_threshold.getD 90 →
      process_library env library = trash_stage env library) := by
  refine ⟨?_, ?_, ?_, ?_⟩
  · intro h1
    unfold process_library
    rw [if_pos h1]
  · intro h1 h2
    unfold process_library
    rw [if_neg (by simp [h1]), if_pos h2]
  · intro h1 h2 h3
    unfold process_library
    rw [if_neg (by simp [h1]), if_neg h2, if_pos h3]
  · intro h1 h2 h3
    exact process_library_validated env library h1 h2 h3

/-- Witness for C6: 3 local files against a minimum of 5 report the
minimum-files failure. -/
theorem c6_three_ordered_checks_witness :
    process_library envAllValid recBelowMin = .ok .belowMinimumFiles :=
  (c6_three_ordered_checks envAllValid recBelowMin).2.1 (by decide) (by decide)

/-- C7: a library that validates but whose configured name has no entry in
the remote sections mapping gets `section_key = None` (main.py:191), is
marked failed via the section-not-found branch (main.py:139-141), no
trash-emptying call is made (`env`, hence the trash oracle, is universally
quantified and never consulted), and the loop continues over the remaining
libraries. -/
theorem c7_section_none_not_found (env : Env) (sections : List (String × String))
    (smc sfc : List (String × Int)) (library : MediaInfo) (rest : List MediaInfo)
    (hnone : sections.lookup library.name = none)
    (h1 : is_dirs_valid env (build_record sections smc sfc library).path = true)
    (h2 : ¬ (build_record sections smc sfc library).file_count.getD (-1)
        < (build_record sections smc sfc library).min_files.getD 0)
    (h3 : ¬ actual_percentage ((build_record sections smc sfc library).file_count.getD 0)
        ((build_record sections smc sfc library).media_count.getD 0)
        < (build_record sections smc sfc library).min_threshold.getD 90) :
    process_library env (build_record sections smc sfc library) = .ok .sectionNotFound ∧
    process_all env sections smc sfc (library :: rest) =
      Except.map (fun p => (p.1, library.name :: p.2))
        (process_all env sections smc sfc rest) := by
  have hkey : (build_record sections smc sfc library).section_key = none := by
    simp [build_record, hnone]
  have hpl : process_library env (build_record sections smc sfc library)
      = .ok .sectionNotFound := by
    rw [process_library_validated env _ h1 h2 h3]
    unfold trash_stage
    rw [hkey]
    rfl
  exact ⟨hpl, process_all_cons_fail env sections smc sfc library rest _ hpl rfl⟩

/-- Witness for C7: the name `Movies` is absent from the sections mapping
`[("A", "1")]`, so the library fails as section-not-found. -/
theorem c7_section_none_not_found_witness :
    process_library envAllValid (build_record [("A", "1")] [] [] libMoviesConf)
      = .ok .sectionNotFound ∧
    process_all envAllValid [("A", "1")] [] [] (libMoviesConf :: []) =
      Except.map (fun p => (p.1, libMoviesConf.name :: p.2))
        (process_all envAllValid [("A", "1")] [] [] []) :=
  c7_section_none_not_found envAllValid [("A", "1")] [] [] libMoviesConf []
    (by decide) (by decide) (by decide) (by decide)

/-- C8: a library whose path is the bare string `p` is processed identically
to the same library with the one-element list `[p]`: the same local file
count (both normalize to `[p]` before `sum_path_file_counts`) and the same
whole-run result in any surrounding configuration (main.py:164-167,
main.py:92-93). -/
theorem c8_bare_string_as_singleton (env : Env) (metrics : Option MetricsCollector)
    (library : MediaInfo) (p : String) (pre post : List MediaInfo)
    (hp : library.path = .str p) :
    sum_path_file_counts env (normalize_path library.path) =
      sum_path_file_counts env (normalize_path (PathSpec.list [p])) ∧
    main_run env metrics (pre ++ library :: post) =
      main_run env metrics (pre ++ { library with path := PathSpec.list [p] } :: post) := by
  have hinfo : normalize_info library = normalize_info { library with path := PathSpec.list [p] } := by
    unfold normalize_info
    rw [hp]
    rfl
  constructor
  · rw [hp]
    rfl
  · unfold main_run
    rw [show (pre ++ library :: post).map normalize_info =
        (pre ++ { library with path := PathSpec.list [p] } :: post).map normalize_info by
      simp [hinfo]]

/-- Witness for C8: the `Movies` library with bare-string path `"/movies"`
behaves like the one with `["/movies"]`. -/
theorem c8_bare_string_as_singleton_witness :
    sum_path_file_counts envMovies (normalize_path libMoviesConf.path) =
      sum_path_file_counts envMovies (normalize_path (PathSpec.list ["/movies"])) ∧
    main_run envMovies none ([] ++ libMoviesConf :: []) =
      main_run envMovies none
        ([] ++ { libMoviesConf with path := PathSpec.list ["/movies"] } :: []) :=
  c8_bare_string_as_singleton envMovies none libMoviesConf "/movies" [] [] rfl

/-- C9: a configured name absent from the remote size lookup yields
`media_count = 0` (the dict-get default of 0, main.py:190) rather than an
error, while a name absent from the sections mapping yields
`section_key = None` (main.py:191), not `0`. -/
theorem c9_unmatched_name_defaults (sections : List (String × String))
    (smc sfc : List (String × Int)) (library : MediaInfo) :
    (smc.lookup library.name = none →
      (build_record sections smc sfc library).media_count = some 0) ∧
    (sections.lookup library.name = none →
      (build_record sections smc sfc library).section_key = none) := by
  constructor
  · intro h
    simp [build_record, h]
  · intro h
    simp [build_record, h]

/-- Witness for C9: with empty remote lookups the `Movies` record gets media
count 0 and no section key. -/
theorem c9_unmatched_name_defaults_witness :
    (build_record [] [] [] libMoviesConf).media_count = some 0 ∧
    (build_record [] [] [] libMoviesConf).section_key = none :=
  ⟨(c9_unmatched_name_defaults [] [] [] libMoviesConf).1 rfl,
   (c9_unmatched_name_defaults [] [] [] libMoviesConf).2 rfl⟩

/-- C10: a section id that is present in the sections mapping but falsy (the
empty string) is treated exactly like an absent one, because main.py:132
branches on the truthiness of `section_key`, not on `is None`: the record
gets `section_key = some ""` and a validated library still fails through the
section-not-found branch, with the trash oracle (universally quantified in
`env`) never consulted. -/
theorem c10_falsy_section_key_not_found (env : Env) (sections : List (String × String))
    (smc sfc : List (String × Int)) (library : MediaInfo)
    (hkey : sections.lookup library.name = some "")
    (h1 : is_dirs_valid env (build_record sections smc sfc library).path = true)
    (h2 : ¬ (build_record sections smc sfc library).file_count.getD (-1)
        < (build_record sections smc sfc library).min_files.getD 0)
    (h3 : ¬ actual_percentage ((build_record sections smc sfc library).file_count.getD 0)
        ((build_record sections smc sfc library).media_count.getD 0)
        < (build_record sections smc sfc library).min_threshold.getD 90) :
    (build_record sections smc sfc library).section_key = some "" ∧
    process_library env (build_record sections smc sfc library) = .ok .sectionNotFound := by
  have hsk : (build_record sections smc sfc library).section_key = some "" := by
    simp [build_record, hkey]
  refine ⟨hsk, ?_⟩
  rw [process_library_validated env _ h1 h2 h3]
  unfold trash_stage
  rw [hsk]
  rfl

/-- Witness for C10: the sections mapping sends `Movies` to the empty-string
key, and the validated library still fails as section-not-found. -/
theorem c10_falsy_section_key_not_found_witness :
    (build_record [("Movies", "")] [] [] libMoviesConf).section_key = some "" ∧
    process_library envAllValid (build_record [("Movies", "")] [] [] libMoviesConf)
      = .ok .sectionNotFound :=
  c10_falsy_section_key_not_found envAllValid [("Movies", "")] [] [] libMoviesConf
    (by decide) (by decide) (by decide) (by decide)

end Dumpsterr
